import Mathlib

/-!
Shallow embedding of the regex-intent dispatcher (`RegexConnector`) of the
pybotframework tutorial notebooks, together with proofs about its behaviour.

The embedded code is `RegexConnector._process` (a linear scan of an ordered
rule list, matching each rule's pattern with `re.match`, i.e. anchored at
position 0) and `RegexConnector._postprocess` (response-set lookup, random
template choice, positional capture substitution with `str.format`).
-/

deriving instance DecidableEq for Except

namespace PyBot

/-- Abstract syntax of the regular-expression fragment used by the rule
files: literal characters, the any-character `.`, concatenation, ordered
alternation `|`, greedy `*`, and capturing groups `( )` numbered by the
position of their opening parenthesis (as in Python's `re`). -/
inductive Regex where
  | eps : Regex
  | chr : Char → Regex
  | dot : Regex
  | cat : Regex → Regex → Regex
  | alt : Regex → Regex → Regex
  | star : Regex → Regex
  | group : Nat → Regex → Regex
deriving DecidableEq, Repr

/-- Structural size of a pattern, used to bound the matcher's recursion. -/
def Regex.size : Regex → Nat
  | .eps => 1
  | .chr _ => 1
  | .dot => 1
  | .cat r1 r2 => r1.size + r2.size + 1
  | .alt r1 r2 => r1.size + r2.size + 1
  | .star r => r.size + 1
  | .group _ r => r.size + 1

/-- Number of capturing groups of a pattern, as `re.compile(p).groups`. -/
def Regex.numGroups : Regex → Nat
  | .eps => 0
  | .chr _ => 0
  | .dot => 0
  | .cat r1 r2 => r1.numGroups + r2.numGroups
  | .alt r1 r2 => r1.numGroups + r2.numGroups
  | .star r => r.numGroups
  | .group _ r => r.numGroups + 1

/-- The tuple returned by `match.groups()`: one slot per capturing group,
`none` for a group that did not participate in the match. -/
def Captures : Type := List (Option String)

instance : DecidableEq Captures := by
  unfold Captures
  infer_instance

/-- Character comparison, case-folded when the pattern was compiled with
`re.IGNORECASE`. -/
def charEq (ci : Bool) (a b : Char) : Bool :=
  if ci then a.toLower == b.toLower else a == b

/-- The text consumed between start state `s` and remainder `s1`
(the remainder is always a suffix of `s`). -/
def capturedText (s s1 : List Char) : String :=
  String.mk (s.take (s.length - s1.length))

/-- Backtracking matcher in the list-of-successes style: all ways the
pattern can match a prefix of the input, in Python's backtracking priority
order (alternation tries the left branch first, `*` is greedy), each
outcome carrying the updated capture slots and the unconsumed remainder.
`re.match`'s answer is the head of this list.  The `fuel` argument only
bounds the recursion depth; `fuelFor` below always supplies enough. -/
def matchF (ci : Bool) : Nat → Regex → List Char → Captures → List (Captures × List Char)
  | 0, _, _, _ => []
  | _ + 1, .eps, s, caps => [(caps, s)]
  | _ + 1, .chr c, s, caps =>
      match s with
      | [] => []
      | a :: s1 => if charEq ci a c then [(caps, s1)] else []
  | _ + 1, .dot, s, caps =>
      match s with
      | [] => []
      | a :: s1 => if a = '\n' then [] else [(caps, s1)]
  | fuel + 1, .cat r1 r2, s, caps =>
      (matchF ci fuel r1 s caps).flatMap (fun p => matchF ci fuel r2 p.2 p.1)
  | fuel + 1, .alt r1 r2, s, caps =>
      matchF ci fuel r1 s caps ++ matchF ci fuel r2 s caps
  | fuel + 1, .star r, s, caps =>
      ((matchF ci fuel r s caps).filter (fun p => p.2.length < s.length)).flatMap
        (fun p => matchF ci fuel (.star r) p.2 p.1) ++ [(caps, s)]
  | fuel + 1, .group idx r, s, caps =>
      (matchF ci fuel r s caps).map (fun p => (p.1.set idx (some (capturedText s p.2)), p.2))

/-- Ample recursion fuel: every recursive call of `matchF` either shrinks
the pattern or (for `*`) shrinks the input while resetting to the starred
pattern, so the call depth is below `(length + 1) * (size + 1)`. -/
def fuelFor (r : Regex) (s : List Char) : Nat :=
  (s.length + 1) * (r.size + 1) + 1

/-- `re.match(pattern, s)` (with the `re.IGNORECASE` flag when `ci` is
true): anchored at position 0, not required to consume all of `s`; on
success yields `match.groups()`, the capture slots all starting out
unset as `re` initialises them. -/
def reMatch (ci : Bool) (r : Regex) (s : String) : Option Captures :=
  match matchF ci (fuelFor r s.data) r s.data (List.replicate r.numGroups none) with
  | [] => none
  | p :: _ => some p.1

/-- One record of the loaded `intent_list`: `{'intent': ..., 'pattern': ...}`. -/
structure PatternRule where
  intent : String
  pattern : Regex
deriving DecidableEq

/-- One value of the loaded `response_dict`: `{'messages': [...]}`. -/
structure ResponseSet where
  messages : List String
deriving DecidableEq

/-- `RegexConnector._process`: scan `intent_list` in order, `re.match`
each rule's pattern against the message; on the first match return
`(item['intent'], match.groups())`, and `(None, None)` if no rule matches. -/
def _process (intent_list : List PatternRule) (message : String) :
    Option String × Option Captures :=
  match intent_list with
  | [] => (none, none)
  | item :: rest =>
      match reMatch false item.pattern message with
      | some caps => (some item.intent, some caps)
      | none => _process rest message

/-- Helper: build the pattern for a literal string (a chain of
single-character matches). -/
def strLit (s : String) : Regex :=
  s.data.foldr (fun c r => Regex.cat (Regex.chr c) r) Regex.eps

/-- The Eliza rule pattern `I need (.*)`. -/
def needPattern : Regex :=
  Regex.cat (strLit "I need ") (Regex.group 0 (Regex.star Regex.dot))

/-- Runtime exceptions `_postprocess` can raise: `random.choice` on an
empty sequence, `str.format` with a placeholder index beyond the supplied
arguments, or `str.format` on a malformed template. -/
inductive PyErr where
  | chooseFromEmpty : PyErr
  | formatIndexError : PyErr
  | formatValueError : PyErr
deriving DecidableEq, Repr

/-- `self.response_dict.get(intent)`: dictionary lookup returning `None`
for a missing key; the keys of the JSON-loaded dictionary are strings, so
an absent (`None`) intent never hits an entry. -/
def dictGet (response_dict : List (String × ResponseSet)) :
    Option String → Option ResponseSet
  | none => none
  | some k => (response_dict.find? (fun p => p.1 == k)).map Prod.snd

/-- `random.choice(seq)`: pick the element indexed by the random source
(modelled as an arbitrary natural `rand`, reduced modulo the length, so a
uniform source yields a uniform choice); raises on an empty sequence. -/
def randomChoice (rand : Nat) (l : List String) : Except PyErr String :=
  if h : l.length = 0 then .error PyErr.chooseFromEmpty
  else .ok (l.get ⟨rand % l.length, Nat.mod_lt _ (Nat.pos_of_ne_zero h)⟩)

/-- How `str.format` renders one argument: `None` prints as `"None"`,
strings print as themselves. -/
def pyStr : Option String → String
  | none => "None"
  | some s => s

/-- Worker for `str.format(*args)` restricted to the feature set the
response templates use: literal text, auto-numbered `\x7b\x7d` placeholders,
and doubled braces as escapes.  `i` is the next auto-number; a placeholder
with no argument left raises IndexError, a stray brace raises ValueError. -/
def pyFormatAux : List Char → List (Option String) → Nat → Except PyErr String
  | [], _, _ => .ok ""
  | c :: rest, args, i =>
    if c = '\x7b' then
      match rest with
      | '\x7b' :: rest2 => (pyFormatAux rest2 args i).map (fun t => "\x7b" ++ t)
      | '\x7d' :: rest2 =>
          match args.get? i with
          | none => .error PyErr.formatIndexError
          | some a => (pyFormatAux rest2 args (i + 1)).map (fun t => pyStr a ++ t)
      | _ => .error PyErr.formatValueError
    else if c = '\x7d' then
      match rest with
      | '\x7d' :: rest2 => (pyFormatAux rest2 args i).map (fun t => "\x7d" ++ t)
      | _ => .error PyErr.formatValueError
    else (pyFormatAux rest args i).map (fun t => String.mk [c] ++ t)

/-- `template.format(*args)` with positional auto-numbered placeholders. -/
def pyFormat (template : String) (args : List (Option String)) : Except PyErr String :=
  pyFormatAux template.data args 0

/-- Number of auto-numbered placeholders a template consumes, following
the same scan as `pyFormatAux` (a malformed tail contributes nothing; the
scan aborts there anyway). -/
def countPh : List Char → Nat
  | [] => 0
  | c :: rest =>
    if c = '\x7b' then
      match rest with
      | '\x7b' :: rest2 => countPh rest2
      | '\x7d' :: rest2 => countPh rest2 + 1
      | _ => 0
    else if c = '\x7d' then
      match rest with
      | '\x7d' :: rest2 => countPh rest2
      | _ => 0
    else countPh rest

/-- `RegexConnector._postprocess`: look the intent up in `response_dict`;
on a hit (the entry, a dictionary with the key `'messages'`, is always
truthy) pick one message at random and, when the capture tuple is
non-empty (truthy), substitute the captures positionally with
`str.format`; on a miss (including the absent intent of a no-match)
return the fixed fallback string. -/
def _postprocess (response_dict : List (String × ResponseSet)) (rand : Nat)
    (intent_tuple : Option String × Option Captures) : Except PyErr String :=
  match dictGet response_dict intent_tuple.1 with
  | some response_list =>
      match randomChoice rand response_list.messages with
      | .error e => .error e
      | .ok response =>
          match intent_tuple.2 with
          | some (e :: es) => pyFormat response (e :: es)
          | _ => .ok response
  | none => .ok "Could not figure out a proper response. Please try again."

/-- The dispatcher's state: the two collections loaded once in
`__init__` from the intent and response JSON files. -/
structure RegexConnector where
  intent_list : List PatternRule
  response_dict : List (String × ResponseSet)
deriving DecidableEq

/-- Modelled from the spec: the base class `Connector.respond` (the
template method of `pybotframework.connector.Connector`, whose source is
not in the tree — only its callers appear) forwards the incoming text to
`_process` and hands the resulting intent tuple to `_postprocess`,
returning the response string. -/
def respond (conn : RegexConnector) (rand : Nat) (message : String) :
    Except PyErr String :=
  _postprocess conn.response_dict rand (_process conn.intent_list message)

/-- State-passing view of `_process`: the method reads
`self.intent_list` and assigns no attribute, so the connector state it
returns is the one it received. -/
def _processSt (conn : RegexConnector) (message : String) :
    RegexConnector × (Option String × Option Captures) :=
  (conn, _process conn.intent_list message)

/-- State-passing view of `respond`: neither `_process` nor
`_postprocess` assigns any attribute of `self`, so the connector state is
returned unchanged. -/
def respondSt (conn : RegexConnector) (rand : Nat) (message : String) :
    RegexConnector × Except PyErr String :=
  (conn, respond conn rand message)

/-- Concrete Eliza rule: `How (.*)` with intent `how`. -/
def ruleHow : PatternRule :=
  ⟨"how", Regex.cat (strLit "How ") (Regex.group 0 (Regex.star Regex.dot))⟩

/-- Concrete Eliza rule: `I need (.*)` with intent `need`. -/
def ruleNeed : PatternRule :=
  ⟨"need", needPattern⟩

/-- Concrete rule whose pattern `hi` is a strict prefix of the next
rule's matches and whose intent has no response entry. -/
def rulePrefixHi : PatternRule := ⟨"greet1", strLit "hi"⟩

/-- Concrete rule `hi there` whose intent does have a response entry. -/
def ruleHiThere : PatternRule := ⟨"greet2", strLit "hi there"⟩

/-- Two-rule connector for the first-match-wins scenario: only the
second rule's intent is in the response dictionary. -/
def connTwoRules : RegexConnector :=
  ⟨[rulePrefixHi, ruleHiThere], [("greet2", ⟨["Hello there!"]⟩)]⟩

/-- The single response template of the concrete `need` connector. -/
def needMessages : List String := ["Why do you need \x7b\x7d?"]

/-- Connector with the Eliza `need` rule and one response template. -/
def connNeed : RegexConnector := ⟨[ruleNeed], [("need", ⟨needMessages⟩)]⟩

/-- Rule matching the literal greeting `hello`, with no capturing group. -/
def ruleHello : PatternRule := ⟨"greet", strLit "hello"⟩

/-- Connector whose only response template contains a literal
placeholder marker while its rule captures nothing. -/
def connVerbatim : RegexConnector :=
  ⟨[ruleHello], [("greet", ⟨["Hi \x7b\x7d!"]⟩)]⟩

/-- The tutorial's pattern `(hi|hello)`: an ordered alternation wrapped
in a capturing group. -/
def hiHelloPattern : Regex :=
  Regex.group 0 (Regex.alt (strLit "hi") (strLit "hello"))

/-- A rule list on which no rule matches returns `(None, None)`. -/
theorem process_of_all_none (il : List PatternRule) (message : String)
    (h : ∀ q ∈ il, reMatch false q.pattern message = none) :
    _process il message = (none, none) := by
  induction il with
  | nil => rfl
  | cons r rest ih =>
      have hr := h r (List.mem_cons_self r rest)
      simp only [_process, hr]
      exact ih fun q hq => h q (List.mem_cons_of_mem r hq)

/-- Scanning stops at the first rule whose pattern matches and returns
its intent together with the captured groups. -/
theorem process_of_first_match (il₁ il₂ : List PatternRule) (r : PatternRule)
    (message : String) (caps : Captures)
    (h₁ : ∀ q ∈ il₁, reMatch false q.pattern message = none)
    (h₂ : reMatch false r.pattern message = some caps) :
    _process (il₁ ++ r :: il₂) message = (some r.intent, some caps) := by
  induction il₁ with
  | nil => simp only [List.nil_append, _process, h₂]
  | cons q rest ih =>
      have hq := h₁ q (List.mem_cons_self q rest)
      simp only [List.cons_append, _process, hq]
      exact ih fun p hp => h₁ p (List.mem_cons_of_mem q hp)

/-- C1: `_process` tries the rules in list order, matching each pattern
anchored at position 0 of the input via `reMatch` (`re.match`, which is
case-sensitive unless the compiled pattern itself requests otherwise);
the first matching rule yields its intent label and the ordered capture
tuple, and an exhausted list yields `(None, None)`. -/
theorem process_first_match_characterization
    (il₁ il₂ : List PatternRule) (r : PatternRule) (message : String) (caps : Captures)
    (h₁ : ∀ q ∈ il₁, reMatch false q.pattern message = none)
    (h₂ : reMatch false r.pattern message = some caps) :
    _process (il₁ ++ r :: il₂) message = (some r.intent, some caps) ∧
    ∀ il : List PatternRule,
      (∀ q ∈ il, reMatch false q.pattern message = none) →
      _process il message = (none, none) :=
  ⟨process_of_first_match il₁ il₂ r message caps h₁ h₂,
   fun il h => process_of_all_none il message h⟩

/-- Witness for C1 at a concrete configuration: with the rule list
`[How (.*), I need (.*)]` and input `I need coffee`, the first rule fails,
the second matches with capture `coffee`, and `_process` returns
`(need, (coffee,))`. -/
theorem process_first_match_characterization_w :
    (∀ q ∈ [ruleHow], reMatch false q.pattern "I need coffee" = none) ∧
    reMatch false ruleNeed.pattern "I need coffee" = some [some "coffee"] ∧
    _process [ruleHow, ruleNeed] "I need coffee" = (some "need", some [some "coffee"]) :=
  ⟨by decide, by decide,
    (process_first_match_characterization [ruleHow] [] ruleNeed "I need coffee"
      [some "coffee"] (by decide) (by decide)).1⟩

/-- C2: when no rule matches, or the first matching rule's intent has no
entry in `response_dict`, `respond` returns the fixed fallback string (a
normal return of an `ok` value, not an exception). -/
theorem respond_fallback (conn : RegexConnector) (rand : Nat) (message : String)
    (h : _process conn.intent_list message = (none, none) ∨
      ∃ intent caps, _process conn.intent_list message = (some intent, caps) ∧
        dictGet conn.response_dict (some intent) = none) :
    respond conn rand message =
      Except.ok "Could not figure out a proper response. Please try again." := by
  rcases h with h | ⟨intent, caps, hp, hd⟩
  · simp only [respond, h, _postprocess, dictGet]
  · simp only [respond, hp, _postprocess, hd]

/-- Witness for C2 at a concrete configuration: on input `zzz` no rule
matches and `respond` returns the fallback string. -/
theorem respond_fallback_w :
    _process [ruleHow, ruleNeed] "zzz" = (none, none) ∧
    respond ⟨[ruleHow, ruleNeed], []⟩ 0 "zzz" =
      Except.ok "Could not figure out a proper response. Please try again." :=
  ⟨by decide, respond_fallback ⟨[ruleHow, ruleNeed], []⟩ 0 "zzz" (Or.inl (by decide))⟩

/-- C4: first-match-wins with no backtracking — when the first matching
rule's intent has no response entry, `respond` returns the fallback even
though a later rule in the list also matches and its intent does have an
entry; the scan never skips a matching rule. -/
theorem respond_first_match_wins_fallback
    (conn : RegexConnector) (rand : Nat) (message : String)
    (il₁ il₂ : List PatternRule) (r r' : PatternRule) (caps caps' : Captures)
    (rl' : ResponseSet)
    (hconn : conn.intent_list = il₁ ++ r :: il₂)
    (h₁ : ∀ q ∈ il₁, reMatch false q.pattern message = none)
    (h₂ : reMatch false r.pattern message = some caps)
    (h₃ : dictGet conn.response_dict (some r.intent) = none)
    (h₄ : r' ∈ il₂)
    (h₅ : reMatch false r'.pattern message = some caps')
    (h₆ : dictGet conn.response_dict (some r'.intent) = some rl') :
    respond conn rand message =
      Except.ok "Could not figure out a proper response. Please try again." := by
  have hp : _process conn.intent_list message = (some r.intent, some caps) := by
    rw [hconn]
    exact process_of_first_match il₁ il₂ r message caps h₁ h₂
  simp only [respond, hp, _postprocess, h₃]

/-- Witness for C4 at a concrete configuration: on input `hi there`,
rule `hi` (intent `greet1`, no entry) matches first, rule `hi there`
(intent `greet2`, which has an entry) also matches, and `respond`
returns the fallback string. -/
theorem respond_first_match_wins_fallback_w :
    reMatch false rulePrefixHi.pattern "hi there" = some [] ∧
    dictGet connTwoRules.response_dict (some "greet1") = none ∧
    reMatch false ruleHiThere.pattern "hi there" = some [] ∧
    dictGet connTwoRules.response_dict (some "greet2") = some ⟨["Hello there!"]⟩ ∧
    respond connTwoRules 0 "hi there" =
      Except.ok "Could not figure out a proper response. Please try again." :=
  ⟨by decide, by decide, by decide, by decide,
    respond_first_match_wins_fallback connTwoRules 0 "hi there" [] [ruleHiThere]
      rulePrefixHi ruleHiThere [] [] ⟨["Hello there!"]⟩ rfl (by decide) (by decide)
      (by decide) (by decide) (by decide) (by decide)⟩

/-- Residues modulo `n` are hit uniformly: over any range of `n * k`
consecutive values of the random source, each index below `n` is chosen
exactly `k` times. -/
theorem filter_mod_card (n k v : Nat) (hv : v < n) :
    ((Finset.range (n * k)).filter (fun r => r % n = v)).card = k := by
  have hn : 0 < n := by omega
  have h1 : ∀ r ∈ (Finset.range (n * k)).filter (fun r => r % n = v),
      r / n ∈ Finset.range k := by
    intro r hr
    rw [Finset.mem_filter, Finset.mem_range] at hr
    rw [Finset.mem_range]
    exact Nat.div_lt_of_lt_mul hr.1
  have h2 : ∀ j ∈ Finset.range k,
      n * j + v ∈ (Finset.range (n * k)).filter (fun r => r % n = v) := by
    intro j hj
    rw [Finset.mem_range] at hj
    rw [Finset.mem_filter, Finset.mem_range]
    refine ⟨?_, ?_⟩
    · calc n * j + v < n * (j + 1) := by nlinarith
        _ ≤ n * k := Nat.mul_le_mul (Nat.le_refl n) hj
    · rw [Nat.mul_add_mod]
      exact Nat.mod_eq_of_lt hv
  have h3 : ∀ r ∈ (Finset.range (n * k)).filter (fun r => r % n = v),
      n * (r / n) + v = r := by
    intro r hr
    rw [Finset.mem_filter] at hr
    rw [← hr.2]
    exact Nat.div_add_mod r n
  have h4 : ∀ j ∈ Finset.range k, (n * j + v) / n = j := by
    intro j _
    rw [Nat.mul_add_div hn, Nat.div_eq_of_lt hv, Nat.add_zero]
  have h := Finset.card_nbij' (fun r => r / n) (fun j => n * j + v) h1 h2 h3 h4
  rw [h, Finset.card_range]

/-- C5: when the first matching rule's intent has a response entry and
the match captured at least one group, `respond` — for every value of the
random source — returns the template the random source selects from the
entry's message list with the captures substituted positionally; the
selection index `rand % length` hits every template equally often over
uniformly drawn sources. -/
theorem respond_random_template_substitution
    (conn : RegexConnector) (rand : Nat) (message : String) (intent : String)
    (e0 : Option String) (es : List (Option String)) (rl : ResponseSet)
    (h₁ : _process conn.intent_list message = (some intent, some (e0 :: es)))
    (h₂ : dictGet conn.response_dict (some intent) = some rl)
    (h₃ : rl.messages ≠ []) :
    (∃ h : rand % rl.messages.length < rl.messages.length,
        respond conn rand message =
          pyFormat (rl.messages.get ⟨rand % rl.messages.length, h⟩) (e0 :: es)) ∧
    (∀ v < rl.messages.length, ∀ k,
        ((Finset.range (rl.messages.length * k)).filter
          (fun r => r % rl.messages.length = v)).card = k) := by
  have hlen : rl.messages.length ≠ 0 := fun h0 => h₃ (List.length_eq_zero.mp h0)
  refine ⟨⟨Nat.mod_lt _ (Nat.pos_of_ne_zero hlen), ?_⟩, fun v hv k => filter_mod_card _ k v hv⟩
  simp only [respond, h₁, _postprocess, h₂, randomChoice, dif_neg hlen]

/-- Witness for C5 at the spec's concrete example: `I need (.*)` on
`I need coffee` captures `coffee`, and the template
`Why do you need` + placeholder + `?` renders `Why do you need coffee?`. -/
theorem respond_random_template_substitution_w :
    respond connNeed 0 "I need coffee" = Except.ok "Why do you need coffee?" := by
  obtain ⟨⟨hlt, heq⟩, -⟩ :=
    respond_random_template_substitution connNeed 0 "I need coffee" "need"
      (some "coffee") [] ⟨needMessages⟩ (by decide) (by decide) (by decide)
  rw [heq]
  rfl

/-- C6: an intent whose response entry holds exactly one template makes
`respond` deterministic — two calls with arbitrary, unrelated states of
the random source return the same string. -/
theorem respond_single_template_deterministic
    (conn : RegexConnector) (message : String) (intent : String)
    (caps : Option Captures) (t : String) (rl : ResponseSet)
    (rand₁ rand₂ : Nat)
    (h₁ : _process conn.intent_list message = (some intent, caps))
    (h₂ : dictGet conn.response_dict (some intent) = some rl)
    (h₃ : rl.messages = [t]) :
    respond conn rand₁ message = respond conn rand₂ message := by
  have hc : ∀ rand : Nat, randomChoice rand rl.messages = Except.ok t := by
    intro rand
    rw [h₃]
    simp [randomChoice, Nat.mod_one]
  simp only [respond, h₁, _postprocess, h₂, hc]

/-- Witness for C6 at a concrete configuration: with the single-template
`need` entry, random-source values 0 and 7 give the same response. -/
theorem respond_single_template_deterministic_w :
    respond connNeed 0 "I need coffee" = respond connNeed 7 "I need coffee" :=
  respond_single_template_deterministic connNeed "I need coffee" "need"
    (some [some "coffee"]) "Why do you need \x7b\x7d?" ⟨needMessages⟩ 0 7
    (by decide) (by decide) (by decide)

/-- C9: an intent present in `response_dict` but with an empty
`messages` list is not treated like an unknown intent — the entry (a
non-empty dictionary) is truthy, so the fallback branch is skipped and
`random.choice` raises on the empty sequence. -/
theorem respond_empty_messages_raises
    (conn : RegexConnector) (rand : Nat) (message : String) (intent : String)
    (caps : Option Captures)
    (h₁ : _process conn.intent_list message = (some intent, caps))
    (h₂ : dictGet conn.response_dict (some intent) = some ⟨[]⟩) :
    respond conn rand message = Except.error PyErr.chooseFromEmpty ∧
    respond conn rand message ≠
      Except.ok "Could not figure out a proper response. Please try again." := by
  have h : respond conn rand message = Except.error PyErr.chooseFromEmpty := by
    simp only [respond, h₁, _postprocess, h₂]
    rfl
  exact ⟨h, by rw [h]; intro hc; cases hc⟩

/-- Witness for C9 at a concrete configuration: the `need` intent mapped
to an empty message list makes `respond` raise instead of falling back. -/
theorem respond_empty_messages_raises_w :
    _process [ruleNeed] "I need coffee" = (some "need", some [some "coffee"]) ∧
    respond ⟨[ruleNeed], [("need", ⟨[]⟩)]⟩ 0 "I need coffee" =
      Except.error PyErr.chooseFromEmpty :=
  ⟨by decide,
    (respond_empty_messages_raises ⟨[ruleNeed], [("need", ⟨[]⟩)]⟩ 0 "I need coffee"
      "need" (some [some "coffee"]) (by decide) (by decide)).1⟩

/-- C10: a first matching rule with no capturing groups yields the empty
(falsy) capture tuple, so the substitution step is skipped and the chosen
template is returned verbatim, literal placeholder markers included. -/
theorem respond_no_captures_verbatim
    (conn : RegexConnector) (rand : Nat) (message : String) (intent : String)
    (rl : ResponseSet) (tmpl : String)
    (h₁ : _process conn.intent_list message = (some intent, some []))
    (h₂ : dictGet conn.response_dict (some intent) = some rl)
    (h₃ : randomChoice rand rl.messages = Except.ok tmpl) :
    respond conn rand message = Except.ok tmpl := by
  simp only [respond, h₁, _postprocess, h₂, h₃]

/-- Witness for C10 at a concrete configuration: the chosen template
still contains the raw placeholder marker and is returned unchanged. -/
theorem respond_no_captures_verbatim_w :
    _process connVerbatim.intent_list "hello" = (some "greet", some []) ∧
    respond connVerbatim 0 "hello" = Except.ok "Hi \x7b\x7d!" :=
  ⟨by decide,
    respond_no_captures_verbatim connVerbatim 0 "hello" "greet" ⟨["Hi \x7b\x7d!"]⟩
      "Hi \x7b\x7d!" (by decide) (by decide) (by decide)⟩

/-- Counterexample to C3: a configuration where the chosen template
references one placeholder while the match extracted zero captures, yet
`respond` neither raises nor pads — it returns the template unfilled. -/
theorem respond_format_mismatch_counterexample :
    countPh ("Hi \x7b\x7d!").data = 1 ∧
    _process connVerbatim.intent_list "hello" = (some "greet", some []) ∧
    respond connVerbatim 0 "hello" = Except.ok "Hi \x7b\x7d!" := by
  decide

/-- Auto-numbered formatting with more placeholders left than arguments
always aborts with an exception (the scan starts at auto-number `i` with
`i` arguments already consumed). -/
theorem pyFormatAux_arity (chars : List Char) (args : List (Option String)) (i : Nat)
    (h1 : args.length < i + countPh chars) (h2 : i ≤ args.length) :
    ∃ err, pyFormatAux chars args i = Except.error err := by
  induction chars, args, i using pyFormatAux.induct with
  | case1 args i =>
      rw [countPh.eq_1] at h1
      omega
  | case2 args i rest2 ih =>
      rw [countPh.eq_2, if_pos rfl] at h1
      obtain ⟨err, herr⟩ := ih h1 h2
      refine ⟨err, ?_⟩
      rw [pyFormatAux.eq_2, if_pos rfl, herr]
      rfl
  | case3 args i rest2 hget =>
      refine ⟨PyErr.formatIndexError, ?_⟩
      rw [pyFormatAux.eq_3, if_pos rfl, hget]
  | case4 args i rest2 a hget ih =>
      have hi : i < args.length := by
        by_contra hcon
        rw [List.get?_eq_none.mpr (by omega)] at hget
        cases hget
      rw [countPh.eq_3, if_pos rfl] at h1
      obtain ⟨err, herr⟩ := ih (by omega) hi
      refine ⟨err, ?_⟩
      rw [pyFormatAux.eq_3, if_pos rfl, hget, herr]
      rfl
  | case5 rest args i hA hB =>
      refine ⟨PyErr.formatValueError, ?_⟩
      rw [pyFormatAux.eq_5 args i '\x7b' rest hA hB, if_pos rfl]
  | case6 args i rest2 hne ih =>
      rw [countPh.eq_3, if_neg hne, if_pos rfl] at h1
      obtain ⟨err, herr⟩ := ih h1 h2
      refine ⟨err, ?_⟩
      rw [pyFormatAux.eq_3, if_neg hne, if_pos rfl, herr]
      rfl
  | case7 rest args i hA hne =>
      refine ⟨PyErr.formatValueError, ?_⟩
      cases rest with
      | nil =>
          rw [pyFormatAux.eq_5 args i '\x7d' [] (fun r h => List.noConfusion h)
            (fun r h => List.noConfusion h), if_neg hne, if_pos rfl]
      | cons d rest2 =>
          by_cases hd : d = '\x7b'
          · subst hd
            rw [pyFormatAux.eq_2, if_neg hne, if_pos rfl]
            rfl
          · have hA2 : ∀ r2 : List Char, d :: rest2 = '\x7b' :: r2 → False := by
              intro r2 h
              injection h with hh _
              exact hd hh
            rw [pyFormatAux.eq_5 args i '\x7d' (d :: rest2) hA2 hA, if_neg hne, if_pos rfl]
  | case8 c rest args i hne1 hne2 ih =>
      cases rest with
      | nil =>
          rw [countPh.eq_5 c [] (fun r h => List.noConfusion h) (fun r h => List.noConfusion h),
            if_neg hne1, if_neg hne2, countPh.eq_1] at h1
          omega
      | cons d rest2 =>
          by_cases hd1 : d = '\x7b'
          · subst hd1
            rw [countPh.eq_2, if_neg hne1, if_neg hne2] at h1
            obtain ⟨err, herr⟩ := ih h1 h2
            refine ⟨err, ?_⟩
            rw [pyFormatAux.eq_2, if_neg hne1, if_neg hne2, herr]
            rfl
          · by_cases hd2 : d = '\x7d'
            · subst hd2
              rw [countPh.eq_3, if_neg hne1, if_neg hne2] at h1
              obtain ⟨err, herr⟩ := ih h1 h2
              refine ⟨err, ?_⟩
              rw [pyFormatAux.eq_3, if_neg hne1, if_neg hne2, herr]
              rfl
            · have hA : ∀ r2 : List Char, d :: rest2 = '\x7b' :: r2 → False := by
                intro r2 h
                injection h with hh _
                exact hd1 hh
              have hB : ∀ r2 : List Char, d :: rest2 = '\x7d' :: r2 → False := by
                intro r2 h
                injection h with hh _
                exact hd2 hh
              rw [countPh.eq_5 c (d :: rest2) hA hB, if_neg hne1, if_neg hne2] at h1
              obtain ⟨err, herr⟩ := ih h1 h2
              refine ⟨err, ?_⟩
              rw [pyFormatAux.eq_5 args i c (d :: rest2) hA hB, if_neg hne1, if_neg hne2, herr]
              rfl

/-- C3 (amended): when the match extracted at least one capture (so the
substitution step runs) and the chosen template references more
positional placeholders than captures were extracted, `respond`
propagates a hard formatting failure to the caller — it does not
truncate, pad, or return the template unfilled. -/
theorem respond_format_arity_error
    (conn : RegexConnector) (rand : Nat) (message : String) (intent : String)
    (e0 : Option String) (es : List (Option String)) (rl : ResponseSet) (tmpl : String)
    (h₁ : _process conn.intent_list message = (some intent, some (e0 :: es)))
    (h₂ : dictGet conn.response_dict (some intent) = some rl)
    (h₃ : randomChoice rand rl.messages = Except.ok tmpl)
    (h₄ : (e0 :: es).length < countPh tmpl.data) :
    ∃ err, respond conn rand message = Except.error err := by
  obtain ⟨err, herr⟩ :=
    pyFormatAux_arity tmpl.data (e0 :: es) 0 (by omega) (Nat.zero_le _)
  refine ⟨err, ?_⟩
  simp only [respond, h₁, _postprocess, h₂, h₃]
  exact herr

/-- Witness for C3's amended theorem: one capture against a
two-placeholder template makes `respond` raise a formatting error. -/
theorem respond_format_arity_error_w :
    countPh ("\x7b\x7d and \x7b\x7d" : String).data = 2 ∧
    ∃ err, respond ⟨[ruleNeed], [("need", ⟨["\x7b\x7d and \x7b\x7d"]⟩)]⟩ 0 "I need coffee" =
      Except.error err :=
  ⟨by decide,
    respond_format_arity_error ⟨[ruleNeed], [("need", ⟨["\x7b\x7d and \x7b\x7d"]⟩)]⟩ 0
      "I need coffee" "need" (some "coffee") [] ⟨["\x7b\x7d and \x7b\x7d"]⟩
      "\x7b\x7d and \x7b\x7d" (by decide) (by decide) (by decide) (by decide)⟩

/-- Counterexample to C7: matching `(hi|hello)` case-insensitively
against `Hello, Alain` does succeed under the dispatcher's matching step,
but the resulting match carries one capture — the alternation group is a
capturing group and records `Hello` — not zero captures. -/
theorem hiHello_capture_counterexample :
    reMatch true hiHelloPattern "Hello, Alain" = some [some "Hello"] ∧
    ∀ caps : Captures,
      reMatch true hiHelloPattern "Hello, Alain" = some caps → caps.length ≠ 0 := by
  decide

/-- C7 (amended): matching `(hi|hello)` compiled case-insensitively
against `Hello, Alain` succeeds under the dispatcher's matching step, and
the result carries exactly one capture, the text `Hello` matched by the
alternation group (which does count as a capturing group). -/
theorem hiHello_one_capture :
    reMatch true hiHelloPattern "Hello, Alain" = some [some "Hello"] ∧
    (reMatch true hiHelloPattern "Hello, Alain").map List.length = some 1 := by
  decide

/-- C8: frame property and purity of the dispatcher.  `_process` and
`respond` assign no attribute of the connector, so in the state-passing
view the connector — `intent_list` and `response_dict` as stored at
construction — comes back unchanged from any call; and a repeated call on
the unchanged state returns the same output, there being no hidden session
state besides the explicit random-source argument. -/
theorem connector_state_unchanged (conn : RegexConnector) (rand : Nat) (message : String) :
    (respondSt conn rand message).1 = conn ∧
    (_processSt conn message).1 = conn ∧
    (respondSt (respondSt conn rand message).1 rand message).2 =
      (respondSt conn rand message).2 ∧
    (_processSt (respondSt conn rand message).1 message).2 =
      (_processSt conn message).2 :=
  ⟨rfl, rfl, rfl, rfl⟩

end PyBot
